import Mathlib

set_option autoImplicit false

/-!
Verification of the request-authentication and dispatch layer of the
fastapi-agentrouter repository, as a shallow embedding in Lean 4.

The embedding models the Python source faithfully:

* raw request bodies are lists of bytes (Nat below 256);
* Python exceptions are modelled with Except / explicit error results:
  a Python function that can raise is embedded as a function into
  Except String _, the error string naming the exception class;
* the ambient clock (time.time() in the source) is passed explicitly as
  a parameter named now, so verification results are pure functions of
  (secret material, body, headers, current time), as the spec states;
* machine integers do not occur: Python ints are unbounded, SHA-256
  words are Nat reduced modulo 2 ^ 32 at every operation;
* Python float parsing (the float(...) builtin applied to header
  strings) is modelled on ASCII strings by pyFloat?, covering the
  decimal grammar with optional sign, fraction, exponent, underscores
  between digits, and the special words nan and inf / infinity.
-/

/-! ## Bytes and UTF-8. Python bytes.decode("utf-8") is strict: it rejects
invalid sequences (overlong forms, surrogates, values above U+10FFFF) by
raising UnicodeDecodeError.  utf8Decode? returns none exactly there. -/

def isContByte (b : Nat) : Bool := 0x80 ≤ b && b ≤ 0xBF

def utf8DecodeAux : List Nat → Option (List Char)
  | [] => some []
  | b :: rest =>
    if b < 0x80 then
      (utf8DecodeAux rest).map (fun cs => Char.ofNat b :: cs)
    else if b < 0xC2 then none
    else if b ≤ 0xDF then
      match rest with
      | b1 :: rest1 =>
        if isContByte b1 then
          (utf8DecodeAux rest1).map
            (fun cs => Char.ofNat ((b - 0xC0) * 0x40 + (b1 - 0x80)) :: cs)
        else none
      | [] => none
    else if b ≤ 0xEF then
      match rest with
      | b1 :: b2 :: rest2 =>
        if (if b == 0xE0 then 0xA0 ≤ b1 && b1 ≤ 0xBF
            else if b == 0xED then 0x80 ≤ b1 && b1 ≤ 0x9F
            else isContByte b1) && isContByte b2 then
          (utf8DecodeAux rest2).map
            (fun cs =>
              Char.ofNat ((b - 0xE0) * 0x1000 + (b1 - 0x80) * 0x40 + (b2 - 0x80)) :: cs)
        else none
      | _ => none
    else if b ≤ 0xF4 then
      match rest with
      | b1 :: b2 :: b3 :: rest3 =>
        if (if b == 0xF0 then 0x90 ≤ b1 && b1 ≤ 0xBF
            else if b == 0xF4 then 0x80 ≤ b1 && b1 ≤ 0x8F
            else isContByte b1) && isContByte b2 && isContByte b3 then
          (utf8DecodeAux rest3).map
            (fun cs =>
              Char.ofNat ((b - 0xF0) * 0x40000 + (b1 - 0x80) * 0x1000
                + (b2 - 0x80) * 0x40 + (b3 - 0x80)) :: cs)
        else none
      | _ => none
    else none

def utf8Decode? (bs : List Nat) : Option String :=
  (utf8DecodeAux bs).map String.mk

def utf8EncodeChar (c : Char) : List Nat :=
  let n := c.toNat
  if n < 0x80 then [n]
  else if n < 0x800 then [0xC0 + n / 0x40, 0x80 + n % 0x40]
  else if n < 0x10000 then
    [0xE0 + n / 0x1000, 0x80 + n / 0x40 % 0x40, 0x80 + n % 0x40]
  else
    [0xF0 + n / 0x40000, 0x80 + n / 0x1000 % 0x40, 0x80 + n / 0x40 % 0x40,
      0x80 + n % 0x40]

def utf8Encode (s : String) : List Nat := s.data.flatMap utf8EncodeChar

/-! ## SHA-256 and HMAC-SHA256, as used through hashlib.sha256 and hmac.new
in the source.  Words are Nat kept below 2 ^ 32 by explicit reduction. -/

def rotr32 (n x : Nat) : Nat :=
  (x >>> n) ||| ((x <<< (32 - n)) &&& 0xFFFFFFFF)

def bigSigma0 (x : Nat) : Nat := rotr32 2 x ^^^ rotr32 13 x ^^^ rotr32 22 x

def bigSigma1 (x : Nat) : Nat := rotr32 6 x ^^^ rotr32 11 x ^^^ rotr32 25 x

def smallSigma0 (x : Nat) : Nat := rotr32 7 x ^^^ rotr32 18 x ^^^ (x >>> 3)

def smallSigma1 (x : Nat) : Nat := rotr32 17 x ^^^ rotr32 19 x ^^^ (x >>> 10)

def shaCh (x y z : Nat) : Nat := (x &&& y) ^^^ ((x ^^^ 0xFFFFFFFF) &&& z)

def shaMaj (x y z : Nat) : Nat := (x &&& y) ^^^ (x &&& z) ^^^ (y &&& z)

def sha256K : List Nat :=
  [1116352408, 1899447441, 3049323471, 3921009573, 961987163,
   1508970993, 2453635748, 2870763221, 3624381080, 310598401,
   607225278, 1426881987, 1925078388, 2162078206, 2614888103,
   3248222580, 3835390401, 4022224774, 264347078, 604807628,
   770255983, 1249150122, 1555081692, 1996064986, 2554220882,
   2821834349, 2952996808, 3210313671, 3336571891, 3584528711,
   113926993, 338241895, 666307205, 773529912, 1294757372,
   1396182291, 1695183700, 1986661051, 2177026350, 2456956037,
   2730485921, 2820302411, 3259730800, 3345764771, 3516065817,
   3600352804, 4094571909, 275423344, 430227734, 506948616,
   659060556, 883997877, 958139571, 1322822218, 1537002063,
   1747873779, 1955562222, 2024104815, 2227730452, 2361852424,
   2428436474, 2756734187, 3204031479, 3329325298]

def sha256H0 : List Nat :=
  [1779033703, 3144134277, 1013904242, 2773480762, 1359893119,
   2600822924, 528734635, 1541459225]

def be64 (n : Nat) : List Nat :=
  [(n >>> 56) % 256, (n >>> 48) % 256, (n >>> 40) % 256, (n >>> 32) % 256,
   (n >>> 24) % 256, (n >>> 16) % 256, (n >>> 8) % 256, n % 256]

def sha256Pad (msg : List Nat) : List Nat :=
  msg ++ 0x80 :: (List.replicate ((119 - msg.length % 64) % 64) 0
    ++ be64 (8 * msg.length))

def beWords : List Nat → List Nat
  | b0 :: b1 :: b2 :: b3 :: rest =>
    (((b0 * 256 + b1) * 256 + b2) * 256 + b3) :: beWords rest
  | _ => []

def shaGetD (l : List Nat) (i : Nat) : Nat := l.getD i 0

def extendMsg (w : List Nat) : List Nat :=
  let n := w.length
  w ++ [(smallSigma1 (shaGetD w (n - 2)) + shaGetD w (n - 7)
    + smallSigma0 (shaGetD w (n - 15)) + shaGetD w (n - 16)) % 4294967296]

def sha256Schedule (block : List Nat) : List Nat :=
  (List.range 48).foldl (fun w _ => extendMsg w) (beWords block)

def sha256Round (st : List Nat) (kw : Nat × Nat) : List Nat :=
  match st with
  | [a, b, c, d, e, f, g, h] =>
    let t1 := (h + bigSigma1 e + shaCh e f g + kw.1 + kw.2) % 4294967296
    let t2 := (bigSigma0 a + shaMaj a b c) % 4294967296
    [(t1 + t2) % 4294967296, a, b, c, (d + t1) % 4294967296, e, f, g]
  | other => other

def sha256Compress (st : List Nat) (block : List Nat) : List Nat :=
  List.zipWith (fun x y => (x + y) % 4294967296) st
    ((sha256K.zip (sha256Schedule block)).foldl sha256Round st)

def chunksAux : Nat → List Nat → List (List Nat)
  | 0, _ => []
  | _, [] => []
  | fuel + 1, b :: rest =>
    (b :: rest).take 64 :: chunksAux fuel ((b :: rest).drop 64)

def chunks64 (l : List Nat) : List (List Nat) := chunksAux l.length l

def wordBE4 (w : Nat) : List Nat :=
  [(w >>> 24) % 256, (w >>> 16) % 256, (w >>> 8) % 256, w % 256]

def sha256 (msg : List Nat) : List Nat :=
  ((chunks64 (sha256Pad msg)).foldl sha256Compress sha256H0).flatMap wordBE4

def hmacSha256 (key msg : List Nat) : List Nat :=
  let k0 := if 64 < key.length then sha256 key else key
  let kp := k0 ++ List.replicate (64 - k0.length) 0
  sha256 ((kp.map (fun b => b ^^^ 0x5c))
    ++ sha256 ((kp.map (fun b => b ^^^ 0x36)) ++ msg))

/-! ## Hex encoding (hexdigest in the source, lowercase) and the
constant-time comparison hmac.compare_digest.  On Python str arguments
compare_digest demands ASCII-only strings and raises TypeError
otherwise; its value is plain string equality. -/

def nibbleChar (n : Nat) : Char :=
  if n < 10 then Char.ofNat (48 + n) else Char.ofNat (87 + n)

def hexStr (bs : List Nat) : String :=
  String.mk (bs.flatMap (fun b => [nibbleChar (b / 16), nibbleChar (b % 16)]))

def isAsciiStr (s : String) : Bool := s.data.all (fun c => c.toNat < 128)

def compareDigest (a b : String) : Except String Bool :=
  if isAsciiStr a && isAsciiStr b then .ok (a == b) else .error "TypeError"

/-! ## Python numeric string parsing.  pyInt? models int(str) and
pyFloat? models float(str) on ASCII strings: surrounding whitespace,
an optional sign, underscores placed strictly between digits, and for
float also fraction, exponent and the words nan / inf / infinity. -/

def isPyWs (c : Char) : Bool :=
  c == ' ' || c == '\t' || c == '\n' || c == '\r' || c.toNat == 11 || c.toNat == 12

def stripPyWs (cs : List Char) : List Char :=
  ((cs.dropWhile isPyWs).reverse.dropWhile isPyWs).reverse

def digitVal (c : Char) : Nat := c.toNat - 48

def digRunAux : List Char → Nat → Nat → Nat × Nat × List Char
  | c :: rest, acc, cnt =>
    if c.isDigit then digRunAux rest (acc * 10 + digitVal c) (cnt + 1)
    else if c == '_' then
      match rest with
      | c2 :: rest2 =>
        if c2.isDigit then digRunAux rest2 (acc * 10 + digitVal c2) (cnt + 1)
        else (acc, cnt, c :: c2 :: rest2)
      | [] => (acc, cnt, [c])
    else (acc, cnt, c :: rest)
  | [], acc, cnt => (acc, cnt, [])

def digRun : List Char → Option (Nat × Nat × List Char)
  | c :: rest => if c.isDigit then some (digRunAux rest (digitVal c) 1) else none
  | [] => none

def intDigits (cs : List Char) : Option Int :=
  match digRun cs with
  | some (v, _, []) => some (v : Int)
  | _ => none

def pyIntChars? (cs : List Char) : Option Int :=
  match stripPyWs cs with
  | '+' :: rest => intDigits rest
  | '-' :: rest => (intDigits rest).map (fun n => -n)
  | rest => intDigits rest

def pyInt? (s : String) : Option Int := pyIntChars? s.data

inductive PyFloat where
  | fin (num : Int) (den : Nat)
  | nan
  | inf
  | ninf
deriving DecidableEq, Repr

def negPyFloat : PyFloat → PyFloat
  | .fin m d => .fin (-m) d
  | .nan => .nan
  | .inf => .ninf
  | .ninf => .inf

def decOfParts (ip fv fd : Nat) (eneg : Bool) (ev : Nat) : PyFloat :=
  if eneg then .fin ((ip * 10 ^ fd + fv : Nat) : Int) (10 ^ fd * 10 ^ ev)
  else .fin (((ip * 10 ^ fd + fv) * 10 ^ ev : Nat) : Int) (10 ^ fd)

def expTail (ip fv fd : Nat) (eneg : Bool) (cs : List Char) : Option PyFloat :=
  match digRun cs with
  | some (ev, _, []) => some (decOfParts ip fv fd eneg ev)
  | _ => none

def withExp (ip fv fd : Nat) (rest : List Char) : Option PyFloat :=
  match rest with
  | [] => some (decOfParts ip fv fd false 0)
  | e :: rest2 =>
    if e.toLower == 'e' then
      match rest2 with
      | '+' :: rest3 => expTail ip fv fd false rest3
      | '-' :: rest3 => expTail ip fv fd true rest3
      | rest3 => expTail ip fv fd false rest3
    else none

def matchCI : List Char → List Char → Option (List Char)
  | [], cs => some cs
  | l :: ls, c :: rest => if c.toLower == l then matchCI ls rest else none
  | _ :: _, [] => none

def pyFloatBody (cs : List Char) : Option PyFloat :=
  match matchCI ['i', 'n', 'f', 'i', 'n', 'i', 't', 'y'] cs with
  | some [] => some .inf
  | _ =>
    match matchCI ['i', 'n', 'f'] cs with
    | some [] => some .inf
    | _ =>
      match matchCI ['n', 'a', 'n'] cs with
      | some [] => some .nan
      | _ =>
        match digRun cs with
        | some (ip, _, rest) =>
          match rest with
          | '.' :: rest2 =>
            match digRun rest2 with
            | some (fv, fd, rest3) => withExp ip fv fd rest3
            | none => withExp ip 0 0 rest2
          | _ => withExp ip 0 0 rest
        | none =>
          match cs with
          | '.' :: rest2 =>
            match digRun rest2 with
            | some (fv, fd, rest3) => withExp 0 fv fd rest3
            | none => none
          | _ => none

def pyFloat? (s : String) : Option PyFloat :=
  match stripPyWs s.data with
  | '+' :: rest => pyFloatBody rest
  | '-' :: rest => (pyFloatBody rest).map negPyFloat
  | rest => pyFloatBody rest

/-! ## String constants for the brace characters, used to write JSON
request bodies. -/

def lbr : String := "\x7b"

def rbr : String := "\x7d"

/-! ## The JSON value model and a parser for json.loads.  Python dicts
are association lists here; duplicate keys follow Python semantics (the
later value wins, which objInsert implements by replacement).  The
parser is partial with respect to Python json.loads: it rejects float
literals and backslash-u escapes (returning none); wherever it returns
some value, json.loads accepts the same text with the same value. -/

inductive Json where
  | null
  | bool (b : Bool)
  | num (n : Int)
  | str (s : String)
  | arr (xs : List Json)
  | obj (fields : List (String × Json))

def jget : List (String × Json) → String → Option Json
  | [], _ => none
  | (k, v) :: rest, key => if k == key then some v else jget rest key

def dictGet (fields : List (String × Json)) (k : String) (d : Json) : Json :=
  (jget fields k).getD d

def objInsert : List (String × Json) → String → Json → List (String × Json)
  | [], k, v => [(k, v)]
  | (k2, v2) :: rest, k, v =>
    if k2 == k then (k2, v) :: rest else (k2, v2) :: objInsert rest k v

def jsonWsChar (c : Char) : Bool :=
  c == ' ' || c == '\t' || c == '\n' || c == '\r'

def skipJsonWs (cs : List Char) : List Char := cs.dropWhile jsonWsChar

def parseJsonStrAux : List Char → Option (List Char × List Char)
  | [] => none
  | '"' :: rest => some ([], rest)
  | '\\' :: e :: rest =>
    (match e with
     | '"' => some '"'
     | '\\' => some '\\'
     | '/' => some '/'
     | 'b' => some (Char.ofNat 8)
     | 'f' => some (Char.ofNat 12)
     | 'n' => some '\n'
     | 'r' => some '\r'
     | 't' => some '\t'
     | _ => none).bind
      (fun c =>
        (parseJsonStrAux rest).map
          (fun (p : List Char × List Char) => (c :: p.1, p.2)))
  | c :: rest =>
    if c.toNat < 0x20 then none
    else (parseJsonStrAux rest).map (fun p => (c :: p.1, p.2))

def jsonDigits : List Char → Option (Nat × List Char)
  | c :: rest =>
    if c == '0' then some (0, rest)
    else if c.isDigit then
      match digRunAux rest (digitVal c) 1 with
      | (v, _, r) => some (v, r)
    else none
  | [] => none

def jsonNumTail (n : Int) (rest : List Char) : Option (Json × List Char) :=
  match rest with
  | c :: _ =>
    if c == '.' || c == 'e' || c == 'E' || c == '_' || c.isDigit then none
    else some (.num n, rest)
  | [] => some (.num n, [])

def litMatch : List Char → List Char → Option (List Char)
  | [], cs => some cs
  | l :: ls, c :: rest => if c == l then litMatch ls rest else none
  | _ :: _, [] => none

mutual

def parseJsonVal : Nat → List Char → Option (Json × List Char)
  | 0, _ => none
  | fuel + 1, cs0 =>
    match skipJsonWs cs0 with
    | 'n' :: rest => (litMatch ['u', 'l', 'l'] rest).map (fun r => (Json.null, r))
    | 't' :: rest => (litMatch ['r', 'u', 'e'] rest).map (fun r => (Json.bool true, r))
    | 'f' :: rest =>
      (litMatch ['a', 'l', 's', 'e'] rest).map (fun r => (Json.bool false, r))
    | '"' :: rest =>
      (parseJsonStrAux rest).map (fun p => (Json.str (String.mk p.1), p.2))
    | '-' :: rest => (jsonDigits rest).bind (fun p => jsonNumTail (-(p.1 : Int)) p.2)
    | '[' :: rest =>
      (match skipJsonWs rest with
       | ']' :: r2 => some (Json.arr [], r2)
       | rest2 => parseJsonItems fuel rest2 [])
    | '{' :: rest =>
      (match skipJsonWs rest with
       | '}' :: r2 => some (Json.obj [], r2)
       | rest2 => parseJsonFields fuel rest2 [])
    | cs => (jsonDigits cs).bind (fun p => jsonNumTail (p.1 : Int) p.2)

def parseJsonItems : Nat → List Char → List Json → Option (Json × List Char)
  | 0, _, _ => none
  | fuel + 1, cs, acc =>
    (parseJsonVal fuel cs).bind (fun p =>
      match skipJsonWs p.2 with
      | ',' :: rest => parseJsonItems fuel rest (acc ++ [p.1])
      | ']' :: rest => some (Json.arr (acc ++ [p.1]), rest)
      | _ => none)

def parseJsonFields :
    Nat → List Char → List (String × Json) → Option (Json × List Char)
  | 0, _, _ => none
  | fuel + 1, cs, acc =>
    match skipJsonWs cs with
    | '"' :: rest =>
      (parseJsonStrAux rest).bind (fun kp =>
        match skipJsonWs kp.2 with
        | ':' :: rest2 =>
          (parseJsonVal fuel rest2).bind (fun p =>
            match skipJsonWs p.2 with
            | ',' :: rest3 => parseJsonFields fuel rest3 (objInsert acc (String.mk kp.1) p.1)
            | '}' :: rest3 => some (Json.obj (objInsert acc (String.mk kp.1) p.1), rest3)
            | _ => none)
        | _ => none)
    | _ => none

end

def pyJson? (s : String) : Option Json :=
  match parseJsonVal (2 * s.data.length + 2) s.data with
  | some (v, rest) => if (skipJsonWs rest).isEmpty then some v else none
  | none => none

def pyJsonBytes? (bs : List Nat) : Option Json := (utf8Decode? bs).bind pyJson?

/-! ## Python truthiness and comparisons used by the handlers.  Python
treats empty string, zero, False, None, empty list and empty dict as
falsy.  An equality test of a json value against a string literal is
true only for equal strings; against an int literal it is true for
equal ints and for booleans (True == 1 and False == 0 in Python). -/

def jsonFalsy : Json → Bool
  | .null => true
  | .bool b => !b
  | .num n => n == 0
  | .str s => s == ""
  | .arr xs => xs.isEmpty
  | .obj fields => fields.isEmpty

def jsonEqStr (j : Option Json) (s : String) : Bool :=
  match j with
  | some (.str t) => t == s
  | _ => false

def jsonEqInt (j : Option Json) (n : Int) : Bool :=
  match j with
  | some (.num m) => m == n
  | some (.bool b) => (if b then (1 : Int) else 0) == n
  | _ => false

/-! ## urllib.parse.parse_qs with default arguments, as the handlers call
it on form-encoded Slack bodies: pairs are split on the ampersand, a
pair without an equals sign or with an empty value is dropped, names
and values go through unquote_plus (plus to space, then percent
decoding; runs of percent escapes are decoded as UTF-8 with U+FFFD
replacement on invalid sequences), repeated names accumulate a list in
first-occurrence order.  The handlers then keep single values as
scalars and repeated values as lists. -/

def utf8DecodeReplAux : Nat → List Nat → List Char
  | 0, _ => []
  | _ + 1, [] => []
  | fuel + 1, b :: rest =>
    if b < 0x80 then Char.ofNat b :: utf8DecodeReplAux fuel rest
    else if b < 0xC2 then Char.ofNat 0xFFFD :: utf8DecodeReplAux fuel rest
    else if b ≤ 0xDF then
      match rest with
      | b1 :: rest1 =>
        if isContByte b1 then
          Char.ofNat ((b - 0xC0) * 0x40 + (b1 - 0x80)) :: utf8DecodeReplAux fuel rest1
        else Char.ofNat 0xFFFD :: utf8DecodeReplAux fuel rest
      | [] => [Char.ofNat 0xFFFD]
    else if b ≤ 0xEF then
      match rest with
      | b1 :: b2 :: rest2 =>
        if (if b == 0xE0 then 0xA0 ≤ b1 && b1 ≤ 0xBF
            else if b == 0xED then 0x80 ≤ b1 && b1 ≤ 0x9F
            else isContByte b1) && isContByte b2 then
          Char.ofNat ((b - 0xE0) * 0x1000 + (b1 - 0x80) * 0x40 + (b2 - 0x80))
            :: utf8DecodeReplAux fuel rest2
        else Char.ofNat 0xFFFD :: utf8DecodeReplAux fuel rest
      | _ => Char.ofNat 0xFFFD :: utf8DecodeReplAux fuel rest
    else if b ≤ 0xF4 then
      match rest with
      | b1 :: b2 :: b3 :: rest3 =>
        if (if b == 0xF0 then 0x90 ≤ b1 && b1 ≤ 0xBF
            else if b == 0xF4 then 0x80 ≤ b1 && b1 ≤ 0x8F
            else isContByte b1) && isContByte b2 && isContByte b3 then
          Char.ofNat ((b - 0xF0) * 0x40000 + (b1 - 0x80) * 0x1000
              + (b2 - 0x80) * 0x40 + (b3 - 0x80)) :: utf8DecodeReplAux fuel rest3
        else Char.ofNat 0xFFFD :: utf8DecodeReplAux fuel rest
      | _ => Char.ofNat 0xFFFD :: utf8DecodeReplAux fuel rest
    else Char.ofNat 0xFFFD :: utf8DecodeReplAux fuel rest

def utf8DecodeRepl (bs : List Nat) : List Char := utf8DecodeReplAux bs.length bs

def isHexDigitChar (c : Char) : Bool :=
  c.isDigit || ('a' ≤ c && c ≤ 'f') || ('A' ≤ c && c ≤ 'F')

def hexVal (c : Char) : Nat :=
  if c.isDigit then digitVal c
  else if 'a' ≤ c then c.toNat - 87
  else c.toNat - 55

def pctRun : List Char → List Nat × List Char
  | '%' :: h1 :: h2 :: rest =>
    if isHexDigitChar h1 && isHexDigitChar h2 then
      match pctRun rest with
      | (bs, r) => ((hexVal h1 * 16 + hexVal h2) :: bs, r)
    else ([], '%' :: h1 :: h2 :: rest)
  | cs => ([], cs)

def unquoteChars : Nat → List Char → List Char
  | 0, cs => cs
  | _ + 1, [] => []
  | fuel + 1, '%' :: h1 :: h2 :: rest =>
    if isHexDigitChar h1 && isHexDigitChar h2 then
      match pctRun ('%' :: h1 :: h2 :: rest) with
      | (bs, r) => utf8DecodeRepl bs ++ unquoteChars fuel r
    else '%' :: unquoteChars fuel (h1 :: h2 :: rest)
  | fuel + 1, c :: rest => c :: unquoteChars fuel rest

def plusToSpace (cs : List Char) : List Char :=
  cs.map (fun c => if c == '+' then ' ' else c)

def unquotePlus (s : String) : String :=
  String.mk (unquoteChars (plusToSpace s.data).length (plusToSpace s.data))

def splitOnChar (sep : Char) : List Char → List (List Char)
  | [] => [[]]
  | c :: rest =>
    match splitOnChar sep rest with
    | [] => [[c]]
    | g :: gs => if c == sep then [] :: g :: gs else (c :: g) :: gs

def qslPair (nv : List Char) : Option (String × String) :=
  if nv.isEmpty then none
  else
    match nv.span (fun c => c ≠ '=') with
    | (_, []) => none
    | (name, _ :: valCs) =>
      if valCs.isEmpty then none
      else some (unquotePlus (String.mk name), unquotePlus (String.mk valCs))

def parseQsl (s : String) : List (String × String) :=
  (splitOnChar '&' s.data).filterMap qslPair

def qsInsert : List (String × List String) → String → String → List (String × List String)
  | [], k, v => [(k, [v])]
  | (k2, vs) :: rest, k, v =>
    if k2 == k then (k2, vs ++ [v]) :: rest else (k2, vs) :: qsInsert rest k v

def qsGroup (pairs : List (String × String)) : List (String × List String) :=
  pairs.foldl (fun acc kv => qsInsert acc kv.1 kv.2) []

def parseQsDict (s : String) : Json :=
  .obj ((qsGroup (parseQsl s)).map (fun kv =>
    (kv.1,
      match kv.2 with
      | [v] => Json.str v
      | vs => Json.arr (vs.map Json.str))))

/-! ## Substring containment, modelling the Python expression
"application/json" in content_type. -/

def listContainsSub (needle : List Char) : List Char → Bool
  | [] => needle.isEmpty
  | c :: rest => needle.isPrefixOf (c :: rest) || listContainsSub needle rest

def strContains (hay needle : String) : Bool := listContainsSub needle.data hay.data

/-! ## The Slack signature scheme.  slackExpectedSig builds the signature
the server computes: the v0= prefix followed by the lowercase hex HMAC-
SHA256 of the canonical string v0:timestamp:body under the signing
secret (integrations/slack.py lines 33 to 39, router.py lines 95 to 101). -/

def slackExpectedSig (signing_secret ts bodyStr : String) : String :=
  "v0=" ++ hexStr (hmacSha256 (utf8Encode signing_secret)
    (utf8Encode ("v0:" ++ ts ++ ":" ++ bodyStr)))

/-- Replay-window test abs(time.time() - float(timestamp)) greater than
60 * 5.  A finite timestamp num / den is compared exactly, over the
common denominator with the rational clock value now (both denominators
are positive).  A nan timestamp compares false against everything in
Python, so the request is never too old for nan; an infinite one is
always too old. -/
def slackTooOld (now : Rat) (t : PyFloat) : Bool :=
  match t with
  | .fin m d =>
    decide (300 * ((now.den : Int) * (d : Int))
      < ((now.num * (d : Int) - m * (now.den : Int)).natAbs : Int))
  | .nan => false
  | .inf => true
  | .ninf => true

/-- Embedding of verify_slack_signature from
src/fastapi_agentrouter/integrations/slack.py lines 15 to 41.  The result
is ok b for a normal boolean return and error e when the Python code
raises: float(timestamp) raises ValueError on a non-numeric timestamp,
request_body.decode raises UnicodeDecodeError on invalid UTF-8, and
hmac.compare_digest raises TypeError on a non-ASCII signature string. -/
def verify_slack_signature (now : Rat) (signing_secret : String)
    (request_body : List Nat) (timestamp signature : String) :
    Except String Bool :=
  match pyFloat? timestamp with
  | none => .error "ValueError"
  | some t =>
    if slackTooOld now t then .ok false
    else
      match utf8Decode? request_body with
      | none => .error "UnicodeDecodeError"
      | some bodyStr =>
        compareDigest (slackExpectedSig signing_secret timestamp bodyStr) signature

def pyIntAbs (x : Int) : Int := if x < 0 then -x else x

/-- Inner body of verify_signature from
src/fastapi_agentrouter/core/security.py lines 118 to 143, before the
surrounding try / except.  The header format is v0=timestamp,signature:
a split on commas yielding anything but two parts returns false, as does
a first part without the v0= prefix; int() on a non-numeric timestamp
raises, the timestamp outside tolerance returns false, and otherwise an
HMAC-SHA256 over v0:timestamp:body is compared by compare_digest.  The
canonical string uses the parsed integer (str(int(...)) normalises
whitespace, sign and underscores away). -/
def verifySignatureChecked (now : Int) (secret_key signature_header : String)
    (body : List Nat) (timestamp_tolerance : Int) : Except String Bool :=
  match splitOnChar ',' signature_header.data with
  | [timestamp_part, signature_part] =>
    if List.isPrefixOf ['v', '0', '='] timestamp_part then
      match pyIntChars? (timestamp_part.drop 3) with
      | none => .error "ValueError"
      | some t =>
        if timestamp_tolerance < pyIntAbs (now - t) then .ok false
        else
          match utf8Decode? body with
          | none => .error "UnicodeDecodeError"
          | some bodyStr =>
            compareDigest (String.mk signature_part)
              ("v0=" ++ hexStr (hmacSha256 (utf8Encode secret_key)
                (utf8Encode ("v0:" ++ toString t ++ ":" ++ bodyStr))))
    else .ok false
  | _ => .ok false

/-- Embedding of verify_signature from
src/fastapi_agentrouter/core/security.py lines 101 to 147: the whole body
runs inside try / except Exception, so every raise maps to a false
return and the function is total. -/
def verify_signature (now : Int) (secret_key signature_header : String)
    (body : List Nat) (timestamp_tolerance : Int) : Bool :=
  match verifySignatureChecked now secret_key signature_header body
      timestamp_tolerance with
  | .ok b => b
  | .error _ => false

/-! ## The channel gates of src/fastapi_agentrouter/dependencies.py lines
43 to 67: FastAPI dependencies that raise HTTPException 404 when the
channel is disabled in settings and pass otherwise.  The error value
carries (status code, detail). -/

def check_slack_enabled (disable_slack : Bool) : Except (Nat × String) Unit :=
  if disable_slack then .error (404, "Slack integration is not enabled")
  else .ok ()

def check_discord_enabled (disable_discord : Bool) : Except (Nat × String) Unit :=
  if disable_discord then .error (404, "Discord integration is not enabled")
  else .ok ()

def check_webhook_enabled (disable_webhook : Bool) : Except (Nat × String) Unit :=
  if disable_webhook then .error (404, "Webhook endpoint is not enabled")
  else .ok ()

/-! ## Agent response fragments.  A fragment as iterated by the handlers
is a Python str, a dict, an object exposing a string content attribute,
or anything else (str and dict instances expose no content attribute). -/

inductive Frag where
  | fstr (s : String)
  | fdict (fields : List (String × Json))
  | fobj (content : String)
  | fother

/-- One-pass agent stream: the fragments yielded in order, and the
exception message if stream iteration raises (after the yields). -/
structure AgentStream where
  frags : List Frag
  raised : Option String

/-- Fragment collection loop of router.py (lines 139 to 146, likewise
229 to 238 and 281 to 290): hasattr(event, "content") keeps the content
attribute, elif isinstance(event, str) keeps the string, and every
other fragment (dicts included) is silently dropped. -/
def routerCollect : List Frag → List String
  | [] => []
  | .fobj c :: fs => c :: routerCollect fs
  | .fstr s :: fs => s :: routerCollect fs
  | _ :: fs => routerCollect fs

def routerConcat (fs : List Frag) : String := String.join (routerCollect fs)

/-- Fragment collection loop of SlackEventHandler.process_event in
core/handlers.py lines 126 to 135: isinstance(chunk, str) keeps the
string, elif isinstance(chunk, dict) and "content" in chunk keeps the
content value, everything else (content-attribute objects included) is
dropped.  A non-string dict content value makes the final join raise
TypeError. -/
def slackHandlerCollect : List Frag → Except String (List String)
  | [] => .ok []
  | .fstr s :: fs => (slackHandlerCollect fs).map (fun l => s :: l)
  | .fdict fields :: fs =>
    match jget fields "content" with
    | some (.str s) => (slackHandlerCollect fs).map (fun l => s :: l)
    | some _ => .error "TypeError"
    | none => slackHandlerCollect fs
  | _ :: fs => slackHandlerCollect fs

def slackHandlerConcat (fs : List Frag) : Except String String :=
  (slackHandlerCollect fs).map String.join

/-- Draining the stream inside the try block: fragments are collected
and joined; if iteration raised, the collected parts are discarded and
the exception propagates to the except clause. -/
def runRouterLoop (a : AgentStream) : Except String String :=
  match a.raised with
  | some e => .error e
  | none => .ok (routerConcat a.frags)

/-! ## HTTP results.  A handler either returns a response (plain text or
JSON, with its status code), raises HTTPException (which FastAPI turns
into a JSON body carrying the detail under that status), or lets some
other Python exception escape (pyError, surfaced by the server as an
internal error).  agentCalled records whether agent.stream_query was
invoked on the request. -/

inductive HResp where
  | plain (status : Nat) (body : String)
  | json (status : Nat) (body : Json)

inductive HRes where
  | resp (r : HResp)
  | httpExc (status : Nat) (detail : String)
  | pyError (msg : String)

structure HOut where
  res : HRes
  agentCalled : Bool

def hresStatus : HRes → Option Nat
  | .resp (.plain st _) => some st
  | .resp (.json st _) => some st
  | .httpExc st _ => some st
  | .pyError _ => none

/-- PlainTextResponse(content=x) for the challenge value: a string is
the body, None renders as the empty body, and any other value raises
AttributeError in Response.render (no encode method). -/
def plainTextOf (j : Json) : HRes :=
  match j with
  | .str s => .resp (.plain 200 s)
  | .null => .resp (.plain 200 "")
  | _ => .pyError "AttributeError"

/-- Slack agent invocation (router.py lines 138 to 150): on success the
joined text is the 200 plain-text body, on exception the 200 plain-text
body is Error: message. -/
def slackAgentResponse (agent : AgentStream) : HRes :=
  match runRouterLoop agent with
  | .ok s => .resp (.plain 200 s)
  | .error e => .resp (.plain 200 ("Error: " ++ e))

/-- Discord agent invocation (router.py lines 228 to 247): both success
and exception return a 200 JSON interaction response of type 4; the
exception text appears as Error: message in the content. -/
def discordAgentResponse (agent : AgentStream) : HRes :=
  match runRouterLoop agent with
  | .ok s =>
    .resp (.json 200 (.obj [("type", .num 4), ("data", .obj [("content", .str s)])]))
  | .error e =>
    .resp (.json 200 (.obj [("type", .num 4),
      ("data", .obj [("content", .str ("Error: " ++ e))])]))

/-- Webhook agent invocation (router.py lines 280 to 297): success is a
200 JSON envelope with the joined text and the echoed session id;
exception raises HTTPException 500 with the exception text as detail. -/
def webhookAgentResponse (session_id : Json) (agent : AgentStream) : HRes :=
  match runRouterLoop agent with
  | .ok s => .resp (.json 200 (.obj [("response", .str s), ("session_id", session_id)]))
  | .error e => .httpExc 500 e

/-- Message extraction tail of the Slack handler (router.py lines 134
to 150): a falsy text gives the prompt response without calling the
agent, otherwise the agent is invoked. -/
def slackTextResponse (text _user : Json) (agent : AgentStream) : HOut :=
  if jsonFalsy text then ⟨.resp (.plain 200 "Please provide a message."), false⟩
  else ⟨slackAgentResponse agent, true⟩

/-- Dispatch on the parsed Slack payload (router.py lines 117 to 150):
type url_verification echoes the challenge; a payload with an event key
uses event.text and event.user (raising AttributeError when the event
value is not a dict); otherwise a payload with a text key uses text and
user_id; otherwise the empty message prompt.  A non-dict payload raises
AttributeError at the first .get. -/
def slackDispatch (data : Json) (agent : AgentStream) : HOut :=
  match data with
  | .obj fields =>
    if jsonEqStr (jget fields "type") "url_verification" then
      ⟨plainTextOf (dictGet fields "challenge" (.str "")), false⟩
    else
      match jget fields "event" with
      | some (.obj efields) =>
        slackTextResponse (dictGet efields "text" (.str ""))
          (dictGet efields "user" (.str "")) agent
      | some _ => ⟨.pyError "AttributeError", false⟩
      | none =>
        match jget fields "text" with
        | some _ =>
          slackTextResponse (dictGet fields "text" (.str ""))
            (dictGet fields "user_id" (.str "")) agent
        | none => slackTextResponse (.str "") (.str "") agent
  | _ => ⟨.pyError "AttributeError", false⟩

/-- Body classification of the Slack handler (router.py lines 110 to
115): JSON when the content type mentions application/json, otherwise
parse_qs with single values unwrapped. -/
def slackParseBody (content_type bodyStr : String) : Option Json :=
  if strContains content_type "application/json" then pyJson? bodyStr
  else some (parseQsDict bodyStr)

/-- Embedding of handle_slack_events from
src/fastapi_agentrouter/router.py lines 66 to 150.  Parameters: the
enable_slack flag of the AgentRouter, the SLACK_SIGNING_SECRET
environment value (empty when unset), the current time, the raw body
bytes, the X-Slack-Request-Timestamp, X-Slack-Signature and content-type
headers (absent headers arrive as empty strings through .get defaults),
and the agent stream. -/
def handle_slack_events (enable_slack : Bool) (signing_secret : String) (now : Rat)
    (body : List Nat) (timestamp signature content_type : String)
    (agent : AgentStream) : HOut :=
  if ¬ enable_slack then ⟨.httpExc 501 "Slack integration is not enabled", false⟩
  else if signing_secret == "" then
    ⟨.httpExc 500 "SLACK_SIGNING_SECRET not configured", false⟩
  else
    match pyFloat? timestamp with
    | none => ⟨.pyError "ValueError", false⟩
    | some t =>
      if slackTooOld now t then ⟨.httpExc 400 "Request timestamp too old", false⟩
      else
        match utf8Decode? body with
        | none => ⟨.pyError "UnicodeDecodeError", false⟩
        | some bodyStr =>
          match compareDigest (slackExpectedSig signing_secret timestamp bodyStr)
              signature with
          | .error e => ⟨.pyError e, false⟩
          | .ok eq =>
            if ¬ eq then ⟨.httpExc 400 "Invalid request signature", false⟩
            else
              match slackParseBody content_type bodyStr with
              | none => ⟨.pyError "JSONDecodeError", false⟩
              | some data => slackDispatch data agent

/-- Option scan of the Discord command handler (router.py lines 219 to
223): the first option named message supplies the value (defaulting to
the command name); iterating a non-dict option raises AttributeError. -/
def findMessageOption : List Json → Json → Except String Json
  | [], cmd => .ok cmd
  | .obj ofs :: rest, cmd =>
    if jsonEqStr (jget ofs "name") "message" then .ok (dictGet ofs "value" cmd)
    else findMessageOption rest cmd
  | _ :: _, _ => .error "AttributeError"

/-- Iterating the options value: a list is scanned; an empty string or
empty dict iterates zero times; a non-empty string yields character
strings and a non-empty dict yields key strings, so the first .get call
raises AttributeError; numbers, booleans and None are not iterable
(TypeError). -/
def iterOptions (options cmd : Json) : Except String Json :=
  match options with
  | .arr l => findMessageOption l cmd
  | .str s => if s == "" then .ok cmd else .error "AttributeError"
  | .obj [] => .ok cmd
  | .obj (_ :: _) => .error "AttributeError"
  | _ => .error "TypeError"

/-- The chained interaction.get("member", ...).get("user", ...).get("id", "")
of router.py line 225; a non-dict intermediate raises AttributeError. -/
def discordUserId (fields : List (String × Json)) : Except String Json :=
  match dictGet fields "member" (.obj []) with
  | .obj m =>
    match dictGet m "user" (.obj []) with
    | .obj u => .ok (dictGet u "id" (.str ""))
    | _ => .error "AttributeError"
  | _ => .error "AttributeError"

/-- Dispatch on the parsed Discord interaction (router.py lines 207 to
251): type 1 answers the PING envelope, type 2 runs the application
command path, anything else answers the unsupported-interaction
envelope without touching the agent.  Python compares .get("type") with
the == operator, under which True equals 1 (jsonEqInt). -/
def discordDispatch (interaction : Json) (agent : AgentStream) : HOut :=
  match interaction with
  | .obj fields =>
    if jsonEqInt (jget fields "type") 1 then
      ⟨.resp (.json 200 (.obj [("type", .num 1)])), false⟩
    else if jsonEqInt (jget fields "type") 2 then
      match dictGet fields "data" (.obj []) with
      | .obj dfields =>
        match iterOptions (dictGet dfields "options" (.arr []))
            (dictGet dfields "name" (.str "")) with
        | .error e => ⟨.pyError e, false⟩
        | .ok _messageText =>
          match discordUserId fields with
          | .error e => ⟨.pyError e, false⟩
          | .ok _uid => ⟨discordAgentResponse agent, true⟩
      | _ => ⟨.pyError "AttributeError", false⟩
    else
      ⟨.resp (.json 200 (.obj [("type", .num 4),
        ("data", .obj [("content", .str "Unsupported interaction type")])])), false⟩
  | _ => ⟨.pyError "AttributeError", false⟩

/-- Embedding of handle_discord_interactions from
src/fastapi_agentrouter/router.py lines 162 to 251.  The Ed25519 check
performed through the external PyNaCl library is abstracted by the
ed25519Valid parameter: the source wraps VerifyKey construction and
verification in a try block whose failure raises HTTPException 401, so
ed25519Valid = true means that external call succeeded on this request
(the library itself is assumed importable). -/
def handle_discord_interactions (enable_discord : Bool) (public_key : String)
    (ed25519Valid : Bool) (body : List Nat) (agent : AgentStream) : HOut :=
  if ¬ enable_discord then
    ⟨.httpExc 501 "Discord integration is not enabled", false⟩
  else if public_key == "" then
    ⟨.httpExc 500 "DISCORD_PUBLIC_KEY not configured", false⟩
  else if ¬ ed25519Valid then ⟨.httpExc 401 "Invalid request signature", false⟩
  else
    match pyJsonBytes? body with
    | none => ⟨.pyError "JSONDecodeError", false⟩
    | some interaction => discordDispatch interaction agent

/-- Embedding of handle_webhook from src/fastapi_agentrouter/router.py
lines 263 to 297: parse the JSON body, read message (default empty),
user_id and session_id (default None), reject a falsy message with
HTTPException 400, otherwise invoke the agent and build the envelope. -/
def handle_webhook (enable_webhook : Bool) (body : List Nat)
    (agent : AgentStream) : HOut :=
  if ¬ enable_webhook then ⟨.httpExc 501 "Webhook endpoint is not enabled", false⟩
  else
    match pyJsonBytes? body with
    | none => ⟨.pyError "JSONDecodeError", false⟩
    | some data =>
      match data with
      | .obj fields =>
        if jsonFalsy (dictGet fields "message" (.str "")) then
          ⟨.httpExc 400 "Message is required", false⟩
        else ⟨webhookAgentResponse (dictGet fields "session_id" .null) agent, true⟩
      | _ => ⟨.pyError "AttributeError", false⟩

/-! ## Helper lemmas. -/

lemma wordBE4_lt (w : Nat) : ∀ b ∈ wordBE4 w, b < 256 := by
  simp [wordBE4]
  omega

lemma sha256_bytes_lt (msg : List Nat) : ∀ b ∈ sha256 msg, b < 256 := by
  intro b hb
  simp only [sha256, List.mem_flatMap] at hb
  obtain ⟨w, _, hw⟩ := hb
  exact wordBE4_lt w b hw

lemma hmacSha256_bytes_lt (key msg : List Nat) :
    ∀ b ∈ hmacSha256 key msg, b < 256 := by
  simp only [hmacSha256]
  exact sha256_bytes_lt _

lemma nibbleChar_ascii : ∀ n, n < 16 → (nibbleChar n).toNat < 128 := by decide

lemma isAsciiStr_hexStr (bs : List Nat) (h : ∀ b ∈ bs, b < 256) :
    isAsciiStr (hexStr bs) = true := by
  simp only [isAsciiStr, hexStr, List.all_eq_true]
  intro c hc
  simp only [List.mem_flatMap] at hc
  obtain ⟨b, hb, hcb⟩ := hc
  have hb256 := h b hb
  simp only [List.mem_cons, List.mem_singleton] at hcb
  rcases hcb with rfl | rfl | hfalse
  · exact decide_eq_true (nibbleChar_ascii _ (by omega))
  · exact decide_eq_true (nibbleChar_ascii _ (by omega))
  · cases hfalse

lemma isAsciiStr_append (s t : String) :
    isAsciiStr (s ++ t) = (isAsciiStr s && isAsciiStr t) := by
  simp [isAsciiStr, String.data_append, List.all_append]

lemma isAsciiStr_slackExpectedSig (secret ts bodyStr : String) :
    isAsciiStr (slackExpectedSig secret ts bodyStr) = true := by
  unfold slackExpectedSig
  rw [isAsciiStr_append]
  rw [isAsciiStr_hexStr _ (hmacSha256_bytes_lt _ _)]
  decide

lemma compareDigest_eq (a b : String) (ha : isAsciiStr a = true)
    (hb : isAsciiStr b = true) : compareDigest a b = .ok (a == b) := by
  simp [compareDigest, ha, hb]

lemma compareDigest_self (a : String) (ha : isAsciiStr a = true) :
    compareDigest a a = .ok true := by
  rw [compareDigest_eq a a ha ha, beq_self_eq_true]

/-- Bridge between the integer replay-window comparison of slackTooOld
and the rational statement 300 < abs (now - m / d). -/
lemma slackTooOld_true_iff (now : Rat) (m : Int) (d : Nat) (hd : 0 < d) :
    slackTooOld now (.fin m d) = true ↔ 300 < |now - (m : Rat) / (d : Rat)| := by
  have hdq : (0 : Rat) < (d : Rat) := by exact_mod_cast hd
  have hbq : (0 : Rat) < (now.den : Rat) := by exact_mod_cast now.pos
  have hsub : now - (m : Rat) / (d : Rat)
      = ((now.num * d - m * now.den : Int) : Rat) / ((now.den * d : Nat) : Rat) := by
    conv_lhs => rw [← Rat.num_div_den now]
    rw [div_sub_div _ _ (ne_of_gt hbq) (ne_of_gt hdq)]
    push_cast
    ring_nf
  simp only [slackTooOld, decide_eq_true_eq]
  rw [hsub, abs_div,
    abs_of_pos (show (0 : Rat) < ((now.den * d : Nat) : Rat) by positivity),
    lt_div_iff₀ (show (0 : Rat) < ((now.den * d : Nat) : Rat) by positivity),
    ← Int.cast_abs, Int.abs_eq_natAbs]
  constructor
  · intro h
    exact_mod_cast h
  · intro h
    exact_mod_cast h

/-- Pipeline lemma: an enabled Slack handler with a configured secret, a
parsing timestamp inside the replay window, a UTF-8 body and the correct
signature reaches the dispatch on the parsed payload. -/
lemma handle_slack_events_valid_sig (secret : String) (hs : (secret == "") = false)
    (now : Rat) (body : List Nat) (ts : String) (tf : PyFloat)
    (bodyStr ct : String) (agent : AgentStream) (data : Json)
    (hts : pyFloat? ts = some tf)
    (hw : slackTooOld now tf = false)
    (hb : utf8Decode? body = some bodyStr)
    (hparse : slackParseBody ct bodyStr = some data) :
    handle_slack_events true secret now body ts (slackExpectedSig secret ts bodyStr)
        ct agent
      = slackDispatch data agent := by
  unfold handle_slack_events
  simp [hs, hts, hb, hw, hparse,
    compareDigest_self _ (isAsciiStr_slackExpectedSig secret ts bodyStr)]

/-! ## Claim C1. -/

/-- C1 counterexample: with the empty timestamp string (which float()
rejects), verify_slack_signature raises ValueError instead of returning
false, so malformed input is an exceptional condition here, contrary to
the claim. -/
theorem slack_verify_nonnumeric_cex :
    verify_slack_signature 1000 "" [] "" "" = .error "ValueError"
    ∧ Except.error "ValueError" ≠ (Except.ok false : Except String Bool) :=
  ⟨rfl, fun h => Except.noConfusion h⟩

/-- C1 amended: whenever the (ASCII) timestamp header does not parse as
a Python float, verify_slack_signature propagates ValueError from the
float() call rather than returning false; the boolean false is returned
only on parse success.  The ASCII hypothesis is not needed by the proof:
it confines the statement to the strings on which the pyFloat? model
provably coincides with the Python float() grammar. -/
theorem slack_verify_nonnumeric_raises (now : Rat) (secret : String)
    (body : List Nat) (ts sig : String)
    (_hascii : isAsciiStr ts = true) (hparse : pyFloat? ts = none) :
    verify_slack_signature now secret body ts sig = .error "ValueError" := by
  unfold verify_slack_signature
  rw [hparse]

/-- C1 witness: the amended theorem applied at the empty timestamp. -/
theorem slack_verify_nonnumeric_raises_witness :
    isAsciiStr "" = true ∧ pyFloat? "" = none
    ∧ verify_slack_signature 1000 "secret" [] "" "v0=abc" = .error "ValueError" :=
  ⟨by decide, by decide,
    slack_verify_nonnumeric_raises 1000 "secret" [] "" "v0=abc" (by decide) (by decide)⟩

/-! ## Claim C5. -/

/-- C5: when the timestamp parses to the rational m / d and its distance
from the current time exceeds the 300 second tolerance, verification
returns false for every signature, the correct one included. -/
theorem slack_verify_expired_false (now : Rat) (secret : String)
    (body : List Nat) (ts sig : String) (m : Int) (d : Nat)
    (hts : pyFloat? ts = some (.fin m d)) (hd : 0 < d)
    (hw : 300 < |now - (m : Rat) / (d : Rat)|) :
    verify_slack_signature now secret body ts sig = .ok false := by
  have h := (slackTooOld_true_iff now m d hd).mpr hw
  unfold verify_slack_signature
  simp [hts, h]

/-- C5 witness: a request stamped 10 checked at time 1000 carrying the
correct signature for its own body is still rejected. -/
theorem slack_verify_expired_false_witness :
    pyFloat? "10" = some (.fin 10 1) ∧ (0 : Nat) < 1
    ∧ (300 : Rat) < |(1000 : Rat) - ((10 : Int) : Rat) / ((1 : Nat) : Rat)|
    ∧ verify_slack_signature 1000 "k" [] "10" (slackExpectedSig "k" "10" "")
        = .ok false :=
  ⟨by decide, by decide, by norm_num,
    slack_verify_expired_false 1000 "k" [] "10" (slackExpectedSig "k" "10" "") 10 1
      (by decide) (by decide) (by norm_num)⟩

/-! ## Claim C6. -/

/-- C6 counterexample: for a body that is not valid UTF-8 (the single
byte 0xFF), a timestamp inside the tolerance window and precisely the
signature v0= ++ hex(HMAC-SHA256(secret, v0: ++ timestamp ++ : ++ body))
over those body bytes, verification does not return true: body.decode
raises UnicodeDecodeError. -/
theorem slack_verify_roundtrip_cex :
    verify_slack_signature 10 "k" [0xFF] "10"
        ("v0=" ++ hexStr (hmacSha256 (utf8Encode "k") (utf8Encode "v0:10:" ++ [0xFF])))
      = .error "UnicodeDecodeError"
    ∧ Except.error "UnicodeDecodeError" ≠ (Except.ok true : Except String Bool) :=
  ⟨rfl, fun h => Except.noConfusion h⟩

/-- C6 amended: for a body that decodes as UTF-8 and a numeric timestamp
inside the tolerance window, the correct signature verifies true; any
other ASCII signature string is rejected with false; and a changed body
is rejected with false whenever its expected signature differs from the
supplied one (for byte changes that keep the body valid UTF-8 —
HMAC-SHA256 collisions are not information-theoretically impossible, and
a change that breaks UTF-8 validity raises UnicodeDecodeError instead of
returning false, as the counterexample shows). -/
theorem slack_verify_correct_roundtrip (now : Rat) (secret : String)
    (body : List Nat) (ts bodyStr : String) (m : Int) (d : Nat)
    (hts : pyFloat? ts = some (.fin m d)) (hd : 0 < d)
    (hw : ¬ 300 < |now - (m : Rat) / (d : Rat)|)
    (hb : utf8Decode? body = some bodyStr) :
    verify_slack_signature now secret body ts (slackExpectedSig secret ts bodyStr)
        = .ok true
    ∧ (∀ sig2 : String, isAsciiStr sig2 = true →
        sig2 ≠ slackExpectedSig secret ts bodyStr →
        verify_slack_signature now secret body ts sig2 = .ok false)
    ∧ (∀ (body2 : List Nat) (bodyStr2 : String),
        utf8Decode? body2 = some bodyStr2 →
        slackExpectedSig secret ts bodyStr2 ≠ slackExpectedSig secret ts bodyStr →
        verify_slack_signature now secret body2 ts
            (slackExpectedSig secret ts bodyStr) = .ok false) := by
  have hwf : slackTooOld now (.fin m d) = false :=
    Bool.not_eq_true _ |>.mp (fun ht => hw ((slackTooOld_true_iff now m d hd).mp ht))
  refine ⟨?_, ?_, ?_⟩
  · unfold verify_slack_signature
    simp [hts, hwf, hb,
      compareDigest_self _ (isAsciiStr_slackExpectedSig secret ts bodyStr)]
  · intro sig2 ha2 hne
    unfold verify_slack_signature
    rw [hts]
    simp only [hwf, Bool.false_eq_true, if_false, hb]
    rw [compareDigest_eq _ _ (isAsciiStr_slackExpectedSig secret ts bodyStr) ha2]
    rw [beq_eq_false_iff_ne.mpr (fun h => hne h.symm)]
  · intro body2 bodyStr2 hb2 hne
    unfold verify_slack_signature
    rw [hts]
    simp only [hwf, Bool.false_eq_true, if_false, hb2]
    rw [compareDigest_eq _ _ (isAsciiStr_slackExpectedSig secret ts bodyStr2)
      (isAsciiStr_slackExpectedSig secret ts bodyStr)]
    rw [beq_eq_false_iff_ne.mpr hne]

/-- C6 witness: the amended theorem applied to the two-byte body hi at
time 10 with timestamp 10; the first conjunct of its conclusion is the
round-trip acceptance. -/
theorem slack_verify_correct_roundtrip_witness :
    pyFloat? "10" = some (.fin 10 1)
    ∧ utf8Decode? [104, 105] = some "hi"
    ∧ ¬ (300 : Rat) < |(10 : Rat) - ((10 : Int) : Rat) / ((1 : Nat) : Rat)|
    ∧ verify_slack_signature 10 "k" [104, 105] "10"
        (slackExpectedSig "k" "10" "hi") = .ok true :=
  ⟨by decide, by decide, by norm_num,
    (slack_verify_correct_roundtrip 10 "k" [104, 105] "10" "hi" 10 1
      (by decide) (by decide) (by norm_num) (by decide)).1⟩

/-! ## Claim C7. -/

/-- C7: a validly signed Slack request whose parsed payload carries type
url_verification is answered with status 200 and the challenge string as
the whole plain-text body, and the agent stream is never invoked. -/
theorem slack_url_verification_challenge (secret : String)
    (hs : (secret == "") = false) (now : Rat) (body : List Nat)
    (ts bodyStr ct : String) (tf : PyFloat) (fields : List (String × Json))
    (c : String) (agent : AgentStream)
    (hts : pyFloat? ts = some tf) (hw : slackTooOld now tf = false)
    (hb : utf8Decode? body = some bodyStr)
    (hparse : slackParseBody ct bodyStr = some (.obj fields))
    (hty : jget fields "type" = some (.str "url_verification"))
    (hch : jget fields "challenge" = some (.str c)) :
    handle_slack_events true secret now body ts (slackExpectedSig secret ts bodyStr)
        ct agent
      = ⟨.resp (.plain 200 c), false⟩ := by
  rw [handle_slack_events_valid_sig secret hs now body ts tf bodyStr ct agent
    (.obj fields) hts hw hb hparse]
  unfold slackDispatch
  simp [hty, jsonEqStr, dictGet, hch, plainTextOf]

def uvBody : String :=
  lbr ++ "\"type\":\"url_verification\",\"challenge\":\"abc123\"" ++ rbr

/-- C7 witness: the spec scenario with challenge abc123, sent as JSON
with a correct signature at time 10. -/
theorem slack_url_verification_challenge_witness :
    pyFloat? "10" = some (.fin 10 1)
    ∧ slackTooOld 10 (.fin 10 1) = false
    ∧ utf8Decode? (utf8Encode uvBody) = some uvBody
    ∧ slackParseBody "application/json" uvBody
        = some (.obj [("type", .str "url_verification"),
            ("challenge", .str "abc123")])
    ∧ handle_slack_events true "k" 10 (utf8Encode uvBody) "10"
        (slackExpectedSig "k" "10" uvBody) "application/json" ⟨[], none⟩
      = ⟨.resp (.plain 200 "abc123"), false⟩ :=
  ⟨by decide, by decide, by decide, rfl,
    slack_url_verification_challenge "k" (by decide) 10 (utf8Encode uvBody)
      "10" uvBody "application/json" (.fin 10 1)
      [("type", .str "url_verification"), ("challenge", .str "abc123")]
      "abc123" ⟨[], none⟩ (by decide) (by decide) (by decide) rfl rfl rfl⟩

/-! ## Claim C2. -/

/-- C2 counterexample: when the agent raises during iteration, the
Discord handler of router.py does not return HTTP 500: it returns a 200
JSON interaction response whose content carries the error text. -/
theorem discord_agent_error_cex :
    handle_discord_interactions true "pk" true
        (utf8Encode (lbr ++ "\"type\": 2" ++ rbr)) ⟨[], some "boom"⟩
      = ⟨.resp (.json 200 (.obj [("type", .num 4),
          ("data", .obj [("content", .str "Error: boom")])])), true⟩
    ∧ hresStatus (handle_discord_interactions true "pk" true
        (utf8Encode (lbr ++ "\"type\": 2" ++ rbr)) ⟨[], some "boom"⟩).res
        = some 200
    ∧ some (200 : Nat) ≠ some (500 : Nat) :=
  ⟨rfl, rfl, by decide⟩

/-- C2 amended: when the agent stream raises with message e, the Slack
handler returns 200 with plain-text body Error: e, the Discord handler
returns 200 with the type-4 JSON envelope whose content is Error: e
(not HTTP 500), and the webhook handler raises HTTPException 500 with e
as the JSON detail.  Stated over the three router.py handlers on fixed
validly-formed requests, for every fragment prefix and error message. -/
theorem agent_stream_error_responses (fs : List Frag) (e : String) :
    handle_slack_events true "k" 10 (utf8Encode "text=hi") "10"
        (slackExpectedSig "k" "10" "text=hi")
        "application/x-www-form-urlencoded" ⟨fs, some e⟩
      = ⟨.resp (.plain 200 ("Error: " ++ e)), true⟩
    ∧ handle_discord_interactions true "pk" true
        (utf8Encode (lbr ++ "\"type\": 2" ++ rbr)) ⟨fs, some e⟩
      = ⟨.resp (.json 200 (.obj [("type", .num 4),
          ("data", .obj [("content", .str ("Error: " ++ e))])])), true⟩
    ∧ handle_webhook true (utf8Encode (lbr ++ "\"message\": \"hi\"" ++ rbr))
        ⟨fs, some e⟩
      = ⟨.httpExc 500 e, true⟩ := by
  refine ⟨?_, rfl, rfl⟩
  rw [handle_slack_events_valid_sig "k" (by decide) 10 (utf8Encode "text=hi")
    "10" (.fin 10 1) "text=hi" "application/x-www-form-urlencoded"
    ⟨fs, some e⟩ (.obj [("text", .str "hi")])
    (by decide) (by decide) (by decide) rfl]
  rfl

/-! ## Claim C3. -/

/-- C3 counterexample: a request to the AgentRouter Slack handler with
the channel disabled is answered with HTTP 501 (router.py lines 68 to
71), not 404, whatever the rest of the request looks like. -/
theorem agentrouter_disabled_501_cex :
    handle_slack_events false "" 0 [] "" "" "" ⟨[], none⟩
      = ⟨.httpExc 501 "Slack integration is not enabled", false⟩
    ∧ hresStatus (handle_slack_events false "" 0 [] "" "" "" ⟨[], none⟩).res
        = some 501
    ∧ some (501 : Nat) ≠ some (404 : Nat) :=
  ⟨rfl, rfl, by decide⟩

/-- C3 amended: the dependency gates check_slack_enabled,
check_discord_enabled and check_webhook_enabled answer a disabled
channel with HTTP 404 and a detail containing not enabled, before any
signature or body handling; the AgentRouter handlers in router.py
instead short-circuit every request to a disabled channel with HTTP 501
and a detail containing not enabled, likewise regardless of signature
validity, body content or configured secrets, without invoking the
agent. -/
theorem disabled_channel_responses :
    check_slack_enabled true = .error (404, "Slack integration is not enabled")
    ∧ check_discord_enabled true = .error (404, "Discord integration is not enabled")
    ∧ check_webhook_enabled true = .error (404, "Webhook endpoint is not enabled")
    ∧ strContains "Slack integration is not enabled" "not enabled" = true
    ∧ strContains "Discord integration is not enabled" "not enabled" = true
    ∧ strContains "Webhook endpoint is not enabled" "not enabled" = true
    ∧ (∀ (secret : String) (now : Rat) (body : List Nat) (ts sig ct : String)
        (agent : AgentStream),
        handle_slack_events false secret now body ts sig ct agent
          = ⟨.httpExc 501 "Slack integration is not enabled", false⟩)
    ∧ (∀ (pk : String) (ed : Bool) (body : List Nat) (agent : AgentStream),
        handle_discord_interactions false pk ed body agent
          = ⟨.httpExc 501 "Discord integration is not enabled", false⟩)
    ∧ (∀ (body : List Nat) (agent : AgentStream),
        handle_webhook false body agent
          = ⟨.httpExc 501 "Webhook endpoint is not enabled", false⟩) :=
  ⟨rfl, rfl, rfl, by decide, by decide, by decide,
    fun _ _ _ _ _ _ _ => rfl, fun _ _ _ _ => rfl, fun _ _ => rfl⟩

/-! ## Claim C4. -/

/-- Declarative selection rule implemented by the router.py loop: the
content attribute when the fragment is an object exposing one, the
fragment itself when it is a string, nothing otherwise. -/
def routerPick : Frag → Option String
  | .fobj c => some c
  | .fstr s => some s
  | _ => none

/-- Declarative selection rule implemented by the handlers.py loop: the
string itself, or the content value of a dict that has one. -/
def slackHandlerPick : Frag → Option String
  | .fstr s => some s
  | .fdict fields =>
    match jget fields "content" with
    | some (.str s) => some s
    | _ => none
  | _ => none

def contentIsStr : Option Json → Bool
  | some (.str _) => true
  | some _ => false
  | none => true

/-- A dict fragment whose content value, if present, is a string (the
condition under which the handlers.py join cannot raise TypeError). -/
def fragContentOk : Frag → Bool
  | .fdict fields => contentIsStr (jget fields "content")
  | _ => true

lemma routerCollect_eq_filterMap (fs : List Frag) :
    routerCollect fs = fs.filterMap routerPick := by
  induction fs with
  | nil => rfl
  | cons f t ih => cases f <;> simp [routerCollect, routerPick, ih]

lemma slackHandlerCollect_ok (fs : List Frag) (h : fs.all fragContentOk = true) :
    slackHandlerCollect fs = .ok (fs.filterMap slackHandlerPick) := by
  induction fs with
  | nil => rfl
  | cons f t ih =>
    simp only [List.all_cons, Bool.and_eq_true] at h
    cases f with
    | fstr s => simp [slackHandlerCollect, slackHandlerPick, Except.map, ih h.2]
    | fdict fields =>
      have hc : contentIsStr (jget fields "content") = true := h.1
      rcases hj : jget fields "content" with _ | j
      · simp [slackHandlerCollect, slackHandlerPick, hj, ih h.2]
      · rw [hj] at hc
        cases j <;> simp [contentIsStr] at hc
        simp [slackHandlerCollect, slackHandlerPick, Except.map, hj, ih h.2]
    | fobj c => simp [slackHandlerCollect, slackHandlerPick, ih h.2]
    | fother => simp [slackHandlerCollect, slackHandlerPick, ih h.2]

/-- C4 counterexample: through the router.py loop, the fragments A,
a dict carrying content B, and C concatenate to AC, not ABC: a dict
fragment exposes no content attribute, is not a str, and is dropped. -/
theorem fragment_concat_cex :
    routerConcat [.fstr "A", .fdict [("content", .str "B")], .fstr "C"] = "AC"
    ∧ "AC" ≠ "ABC" :=
  ⟨rfl, by decide⟩

/-- C4 amended: the router.py translation keeps the content attribute of
objects exposing one and keeps string fragments raw, dropping dict and
other fragments (so the example gives AC); the handlers.py translation
keeps string fragments raw and the content value of dict fragments,
dropping attribute-carrying objects and others (so the example gives
ABC); both join with no separator in emission order. -/
theorem fragment_concat_rules (fs : List Frag)
    (hok : fs.all fragContentOk = true) :
    routerConcat fs = String.join (fs.filterMap routerPick)
    ∧ slackHandlerConcat fs = .ok (String.join (fs.filterMap slackHandlerPick))
    ∧ routerConcat [.fstr "A", .fdict [("content", .str "B")], .fstr "C"] = "AC"
    ∧ slackHandlerConcat [.fstr "A", .fdict [("content", .str "B")], .fstr "C"]
        = .ok "ABC" := by
  refine ⟨?_, ?_, rfl, rfl⟩
  · rw [routerConcat, routerCollect_eq_filterMap]
  · rw [slackHandlerConcat, slackHandlerCollect_ok fs hok]
    rfl

/-- C4 witness: the amended theorem applied to the example fragment
list itself. -/
theorem fragment_concat_rules_witness :
    ([Frag.fstr "A", .fdict [("content", .str "B")], .fstr "C"].all fragContentOk
      = true)
    ∧ routerConcat [.fstr "A", .fdict [("content", .str "B")], .fstr "C"]
        = String.join
            ([Frag.fstr "A", .fdict [("content", .str "B")],
              .fstr "C"].filterMap routerPick) :=
  ⟨by decide,
    (fragment_concat_rules
      [.fstr "A", .fdict [("content", .str "B")], .fstr "C"] (by decide)).1⟩

/-! ## Claim C8. -/

/-- C8: a webhook request whose JSON body carries a non-empty string
message, with an agent stream that yields its fragments without
raising, is answered 200 with the JSON envelope holding the
concatenated fragment text under response and the session_id value of
the request (null when absent, through the dictGet default) echoed
under session_id. -/
theorem webhook_roundtrip (body : List Nat) (fields : List (String × Json))
    (m : String) (sid : Json) (fs : List Frag)
    (hparse : pyJsonBytes? body = some (.obj fields))
    (hm : jget fields "message" = some (.str m)) (hne : m ≠ "")
    (hsid : dictGet fields "session_id" .null = sid) :
    handle_webhook true body ⟨fs, none⟩
      = ⟨.resp (.json 200 (.obj [("response", .str (routerConcat fs)),
          ("session_id", sid)])), true⟩ := by
  unfold handle_webhook
  simp only [hparse]
  rw [hsid]
  simp [dictGet, hm, jsonFalsy, beq_eq_false_iff_ne.mpr hne,
    webhookAgentResponse, runRouterLoop, routerConcat]

def wbBody : String := lbr ++ "\"message\":\"hi\",\"session_id\":\"s1\"" ++ rbr

/-- C8 witness: the spec scenario, message hi with session s1 and an
agent yielding the single fragment Echo: hi. -/
theorem webhook_roundtrip_witness :
    pyJsonBytes? (utf8Encode wbBody)
        = some (.obj [("message", .str "hi"), ("session_id", .str "s1")])
    ∧ "hi" ≠ ""
    ∧ handle_webhook true (utf8Encode wbBody) ⟨[.fstr "Echo: hi"], none⟩
      = ⟨.resp (.json 200 (.obj [("response", .str "Echo: hi"),
          ("session_id", .str "s1")])), true⟩ :=
  ⟨rfl, by decide,
    webhook_roundtrip (utf8Encode wbBody)
      [("message", .str "hi"), ("session_id", .str "s1")] "hi" (.str "s1")
      [.fstr "Echo: hi"] rfl rfl (by decide) rfl⟩

/-! ## Claim C9. -/

/-- C9: verify_signature from core/security.py is total by construction
(its body runs inside try / except returning false on any exception) and
returns false on each malformed-header shape: a header that does not
split on commas into exactly two parts, a first part that does not start
with v0=, and a timestamp part whose digits do not parse as a Python
int. -/
theorem verify_signature_malformed_false (now : Int) (secret header : String)
    (body : List Nat) (tol : Int) :
    ((splitOnChar ',' header.data).length ≠ 2 →
      verify_signature now secret header body tol = false)
    ∧ (∀ tp sp, splitOnChar ',' header.data = [tp, sp] →
        ¬ List.isPrefixOf ['v', '0', '='] tp = true →
        verify_signature now secret header body tol = false)
    ∧ (∀ tp sp, splitOnChar ',' header.data = [tp, sp] →
        List.isPrefixOf ['v', '0', '='] tp = true →
        pyIntChars? (tp.drop 3) = none →
        verify_signature now secret header body tol = false) := by
  refine ⟨?_, ?_, ?_⟩
  · intro hlen
    unfold verify_signature verifySignatureChecked
    rcases hsp : splitOnChar ',' header.data with _ | ⟨a, _ | ⟨b, _ | ⟨c, t⟩⟩⟩
    · rfl
    · rfl
    · rw [hsp] at hlen
      simp at hlen
    · rfl
  · intro tp sp hsp hpre
    unfold verify_signature verifySignatureChecked
    rw [hsp]
    simp [hpre]
  · intro tp sp hsp hpre hint
    unfold verify_signature verifySignatureChecked
    rw [hsp]
    simp [hpre, hint]

/-- C9 witness: the three malformed shapes at concrete headers: no
comma, a missing v0= marker, and a non-numeric timestamp. -/
theorem verify_signature_malformed_false_witness :
    verify_signature 1000 "k" "nocomma" [] 300 = false
    ∧ verify_signature 1000 "k" "x0=1,sig" [] 300 = false
    ∧ verify_signature 1000 "k" "v0=abc,sig" [] 300 = false :=
  ⟨(verify_signature_malformed_false 1000 "k" "nocomma" [] 300).1 (by decide),
    (verify_signature_malformed_false 1000 "k" "x0=1,sig" [] 300).2.1
      ['x', '0', '=', '1'] ['s', 'i', 'g'] (by decide) (by decide),
    (verify_signature_malformed_false 1000 "k" "v0=abc,sig" [] 300).2.2
      ['v', '0', '=', 'a', 'b', 'c'] ['s', 'i', 'g'] (by decide) (by decide)
      (by decide)⟩

/-! ## Claim C10. -/

/-- C10: a validly signed Discord interaction whose type equals neither
1 nor 2 under Python equality is answered 200 with the type-4 JSON
envelope carrying Unsupported interaction type, and the agent stream is
never invoked. -/
theorem discord_unsupported_type (pk : String) (hpk : (pk == "") = false)
    (body : List Nat) (fields : List (String × Json)) (agent : AgentStream)
    (hparse : pyJsonBytes? body = some (.obj fields))
    (h1 : jsonEqInt (jget fields "type") 1 = false)
    (h2 : jsonEqInt (jget fields "type") 2 = false) :
    handle_discord_interactions true pk true body agent
      = ⟨.resp (.json 200 (.obj [("type", .num 4),
          ("data", .obj [("content", .str "Unsupported interaction type")])])),
        false⟩ := by
  unfold handle_discord_interactions
  simp only [hparse, hpk]
  unfold discordDispatch
  simp [h1, h2]

/-- C10 witness: interaction type 3 with a valid signature and a
non-empty agent stream. -/
theorem discord_unsupported_type_witness :
    pyJsonBytes? (utf8Encode (lbr ++ "\"type\": 3" ++ rbr))
        = some (.obj [("type", .num 3)])
    ∧ jsonEqInt (some (.num 3)) 1 = false
    ∧ jsonEqInt (some (.num 3)) 2 = false
    ∧ handle_discord_interactions true "pk" true
        (utf8Encode (lbr ++ "\"type\": 3" ++ rbr)) ⟨[.fstr "x"], none⟩
      = ⟨.resp (.json 200 (.obj [("type", .num 4),
          ("data", .obj [("content", .str "Unsupported interaction type")])])),
        false⟩ :=
  ⟨rfl, rfl, rfl,
    discord_unsupported_type "pk" (by decide)
      (utf8Encode (lbr ++ "\"type\": 3" ++ rbr)) [("type", .num 3)]
      ⟨[.fstr "x"], none⟩ rfl rfl rfl⟩
